import Mathlib

/-!
Verification of the great-circle flight-path application (`src/app.py`).

The numerical core, `great_circle_points`, is embedded over `ℝ`:
numpy's float64 trigonometry is modelled by the real functions
`Real.sin`, `Real.cos`, `Real.arccos`, `Real.sqrt`, and `np.arctan2 y x`
by `Complex.arg (x + y·i)`, which has the same range `(-π, π]` and the
same value `0` at the origin.  `ℝ` has no NaN or Inf: where numpy's
division by `sin delta = 0` would produce NaN, Lean's convention
`x / 0 = 0` applies.  Either way the Python function returns two plain
lists and raises nothing; the embedding is total for the same reason.

The flight registry and the selection step of the `update_flights`
callback are embedded as pure list values and functions; the Python list
comprehension reads the global `FLIGHT_PATHS` without mutating it, so the
selection step is a pure function of the constant registry.
-/

noncomputable section

open Real

/-- `to_radians` (app.py line 10): degrees to radians. -/
def to_radians (deg : ℝ) : ℝ := deg * Real.pi / 180

/-- numpy's `arctan2 y x`: the angle of the point `(x, y)` in `(-π, π]`,
with `arctan2 0 0 = 0`; modelled as the argument of `x + y·i`. -/
def arctan2 (y x : ℝ) : ℝ := Complex.arg ⟨x, y⟩

/-- `np.linspace 0 1 n` (app.py line 28): `n` evenly spaced samples from
`0` to `1`, both endpoints included.  For `n = 1` numpy returns `[0]`;
here the convention `0 / 0 = 0` yields the same single value. -/
def linspace01 (n : ℕ) : List ℝ :=
  (List.range n).map fun i : ℕ => (i : ℝ) / ((n : ℝ) - 1)

/-- The spherical-law-of-cosines central angle computed by
`great_circle_points` (app.py lines 23-26); arguments in radians. -/
def central_angle (lat1r lon1r lat2r lon2r : ℝ) : ℝ :=
  Real.arccos (Real.sin lat1r * Real.sin lat2r +
    Real.cos lat1r * Real.cos lat2r * Real.cos (lon2r - lon1r))

/-- The loop body of `great_circle_points` (app.py lines 32-44): the path
point at interpolation fraction `s`, as `(lat, lon)` in degrees. -/
def gc_point (lat1r lon1r lat2r lon2r delta s : ℝ) : ℝ × ℝ :=
  let A := Real.sin ((1 - s) * delta) / Real.sin delta
  let B := Real.sin (s * delta) / Real.sin delta
  let x := A * Real.cos lat1r * Real.cos lon1r + B * Real.cos lat2r * Real.cos lon2r
  let y := A * Real.cos lat1r * Real.sin lon1r + B * Real.cos lat2r * Real.sin lon2r
  let z := A * Real.sin lat1r + B * Real.sin lat2r
  (arctan2 z (Real.sqrt (x * x + y * y)) * 180 / Real.pi,
   arctan2 y x * 180 / Real.pi)

/-- `great_circle_points` (app.py lines 13-46): the pair of returned lists
`(lat_points, lon_points)`, in degrees. -/
def great_circle_points (lat1 lon1 lat2 lon2 : ℝ) (num_points : ℕ) :
    List ℝ × List ℝ :=
  let delta := central_angle (to_radians lat1) (to_radians lon1)
    (to_radians lat2) (to_radians lon2)
  let pts := (linspace01 num_points).map
    (gc_point (to_radians lat1) (to_radians lon1)
      (to_radians lat2) (to_radians lon2) delta)
  (pts.map Prod.fst, pts.map Prod.snd)

/-- `great_circle_points` invoked with the two endpoints only, as in
`create_globe_figure` (app.py line 201): Python fills in the declared
default `num_points=50` (app.py line 13). -/
def great_circle_points_default (lat1 lon1 lat2 lon2 : ℝ) : List ℝ × List ℝ :=
  great_circle_points lat1 lon1 lat2 lon2 50

/-- The central angle between two points given in degrees: the
great-circle distance on the unit sphere (the "great-circle distance" of
spec §8, proportional to surface distance). -/
def gc_delta (lat1 lon1 lat2 lon2 : ℝ) : ℝ :=
  central_angle (to_radians lat1) (to_radians lon1)
    (to_radians lat2) (to_radians lon2)

/-- A flight registry entry (app.py lines 51-60). -/
structure Flight where
  id : String
  label : String
  checked : Bool
  cities : List (String × ℝ × ℝ)

/-- `BASE_FLIGHTS` (app.py lines 61-116). -/
def BASE_FLIGHTS : List Flight :=
  [⟨"lax_tokyo", "Los Angeles → Tokyo", true,
    [("Los Angeles", 34.0522, -118.2437), ("Tokyo", 35.6895, 139.6917)]⟩,
   ⟨"nyc_sydney", "New York → Sydney", true,
    [("New York", 40.7128, -74.0060), ("Sydney", -33.8688, 151.2093)]⟩,
   ⟨"london_buenosaires", "London → Buenos Aires", true,
    [("London", 51.5074, 0.1278), ("Buenos Aires", -34.6037, -58.3816)]⟩,
   ⟨"seattle_johannesburg", "Seattle → Johannesburg", true,
    [("Seattle", 47.6062, -122.3321), ("Johannesburg", -26.2041, 28.0473)]⟩,
   ⟨"paris_beijing", "Paris → Beijing", true,
    [("Paris", 48.8566, 2.3522), ("Beijing", 39.9042, 116.4074)]⟩,
   ⟨"vancouver_rio", "Vancouver → Rio de Janeiro", true,
    [("Vancouver", 49.2827, -123.1207), ("Rio de Janeiro", -22.9068, -43.1729)]⟩]

/-- `city_data` (app.py lines 123-137). -/
def city_data : List (String × ℝ × ℝ) :=
  [("Chicago", 41.8781, -87.6298),
   ("Cairo", 30.0444, 31.2357),
   ("Mexico City", 19.4326, -99.1332),
   ("Moscow", 55.7558, 37.6173),
   ("New Delhi", 28.6139, 77.2090),
   ("Rome", 41.9028, 12.4964),
   ("Cape Town", -33.9249, 18.4241),
   ("Dubai", 25.2048, 55.2708),
   ("Lima", -12.0464, -77.0428),
   ("Hong Kong", 22.3193, 114.1694),
   ("Auckland", -36.8485, 174.7633),
   ("Toronto", 43.6532, -79.3832),
   ("Singapore", 1.3521, 103.8198)]

/-- `f"{city.lower().replace(' ', '_')}"` (app.py line 149). -/
def slugify (s : String) : String := (s.toLower).replace " " "_"

/-- The flight record built for the city pair `(i, j)` (app.py lines 145-161). -/
def mk_additional (i j : ℕ) : Flight :=
  let a := city_data.getD i ("", 0, 0)
  let b := city_data.getD j ("", 0, 0)
  ⟨slugify a.1 ++ "_" ++ slugify b.1, a.1 ++ " → " ++ b.1, false, [a, b]⟩

/-- `ADDITIONAL_FLIGHTS` (app.py lines 139-185): all pairs `i < j` from
`city_data`, then the two manually appended flights. -/
def ADDITIONAL_FLIGHTS : List Flight :=
  ((List.range city_data.length).flatMap fun i =>
    (List.range' (i + 1) (city_data.length - (i + 1))).map fun j =>
      mk_additional i j) ++
  [⟨"santiago_istanbul", "Santiago → Istanbul", false,
    [("Santiago", -33.4489, -70.6693), ("Istanbul", 41.0082, 28.9784)]⟩,
   ⟨"tokyo_rome", "Tokyo → Rome", false,
    [("Tokyo", 35.6895, 139.6917), ("Rome", 41.9028, 12.4964)]⟩]

/-- `FLIGHT_PATHS` (app.py line 188). -/
def FLIGHT_PATHS : List Flight := BASE_FLIGHTS ++ ADDITIONAL_FLIGHTS

/-- The selection step of `update_flights` (app.py line 333):
`[f for f in FLIGHT_PATHS if f["id"] in selected_ids]`. -/
def selected_flights (selected_ids : List String) : List Flight :=
  FLIGHT_PATHS.filter fun f => decide (f.id ∈ selected_ids)

/-! ### Degree/radian conversion lemmas -/

lemma to_radians_rightInv (x : ℝ) : to_radians x * 180 / Real.pi = x := by
  unfold to_radians
  field_simp

lemma to_radians_leftInv (x : ℝ) : to_radians (x * 180 / Real.pi) = x := by
  unfold to_radians
  field_simp

lemma to_radians_strictMono {x y : ℝ} (h : x < y) : to_radians x < to_radians y := by
  unfold to_radians
  nlinarith [Real.pi_pos]

lemma to_radians_mono {x y : ℝ} (h : x ≤ y) : to_radians x ≤ to_radians y := by
  unfold to_radians
  nlinarith [Real.pi_pos]

lemma to_radians_zero : to_radians 0 = 0 := by
  unfold to_radians
  ring

lemma to_radians_90 : to_radians 90 = Real.pi / 2 := by
  unfold to_radians
  ring

lemma to_radians_180 : to_radians 180 = Real.pi := by
  unfold to_radians
  ring

lemma to_radians_neg_180 : to_radians (-180) = -Real.pi := by
  unfold to_radians
  ring

lemma to_radians_270 : to_radians 270 = Real.pi + Real.pi / 2 := by
  unfold to_radians
  ring

/-! ### `arctan2` lemmas -/

lemma arctan2_zero_zero : arctan2 0 0 = 0 := by
  have h : (⟨0, 0⟩ : ℂ) = 0 := by
    apply Complex.ext <;> simp
  unfold arctan2
  rw [h, Complex.arg_zero]

lemma arctan2_zero_one : arctan2 0 1 = 0 := by
  have h : (⟨1, 0⟩ : ℂ) = 1 := by
    apply Complex.ext <;> simp
  unfold arctan2
  rw [h, Complex.arg_one]

lemma arctan2_one_zero : arctan2 1 0 = Real.pi / 2 := by
  have h : (⟨0, 1⟩ : ℂ) = Complex.I := by
    apply Complex.ext <;> simp
  unfold arctan2
  rw [h, Complex.arg_I]

lemma arctan2_neg_one_zero : arctan2 (-1) 0 = -(Real.pi / 2) := by
  have h : (⟨0, -1⟩ : ℂ) = -Complex.I := by
    apply Complex.ext <;> simp
  unfold arctan2
  rw [h, Complex.arg_neg_I]

/-- `arctan2` inverts the planar polar parametrisation for a positive radius
and an angle in `(-π, π]`. -/
lemma arctan2_mul_cos_sin {r θ : ℝ} (hr : 0 < r) (h1 : -Real.pi < θ)
    (h2 : θ ≤ Real.pi) : arctan2 (r * Real.sin θ) (r * Real.cos θ) = θ := by
  have h : (⟨r * Real.cos θ, r * Real.sin θ⟩ : ℂ) =
      (r : ℂ) * (Complex.cos θ + Complex.sin θ * Complex.I) := by
    apply Complex.ext <;>
      simp [Complex.cos_ofReal_re, Complex.sin_ofReal_re, Complex.cos_ofReal_im,
        Complex.sin_ofReal_im]
  unfold arctan2
  rw [h]
  exact Complex.arg_mul_cos_add_sin_mul_I hr ⟨h1, h2⟩

lemma arctan2_cos_sin {θ : ℝ} (h1 : -Real.pi < θ) (h2 : θ ≤ Real.pi) :
    arctan2 (Real.sin θ) (Real.cos θ) = θ := by
  have h := arctan2_mul_cos_sin (r := 1) one_pos h1 h2
  simpa using h

/-! ### Recovering Cartesian coordinates from the spherical output -/

lemma abs_mk_eq_one {px py pz : ℝ} (hp : px * px + py * py + pz * pz = 1) :
    Complex.abs ⟨Real.sqrt (px * px + py * py), pz⟩ = 1 := by
  rw [Complex.abs_apply, Complex.normSq_mk,
    Real.mul_self_sqrt (add_nonneg (mul_self_nonneg px) (mul_self_nonneg py)), hp,
    Real.sqrt_one]

lemma recon_sin_lat {px py pz : ℝ} (hp : px * px + py * py + pz * pz = 1) :
    Real.sin (arctan2 pz (Real.sqrt (px * px + py * py))) = pz := by
  unfold arctan2
  rw [Complex.sin_arg, abs_mk_eq_one hp]
  simp

lemma recon_cos_lat {px py pz : ℝ} (hp : px * px + py * py + pz * pz = 1) :
    Real.cos (arctan2 pz (Real.sqrt (px * px + py * py))) =
      Real.sqrt (px * px + py * py) := by
  unfold arctan2
  have hne : (⟨Real.sqrt (px * px + py * py), pz⟩ : ℂ) ≠ 0 := by
    intro h0
    have := abs_mk_eq_one hp
    rw [h0] at this
    simp at this
  rw [Complex.cos_arg hne, abs_mk_eq_one hp]
  simp

lemma recon_cos_lon (px py : ℝ) :
    Real.sqrt (px * px + py * py) * Real.cos (arctan2 py px) = px := by
  unfold arctan2
  rcases eq_or_ne (px * px + py * py) 0 with h0 | h0
  · have hx : px = 0 := by nlinarith [sq_nonneg px, sq_nonneg py]
    have hy : py = 0 := by nlinarith [sq_nonneg px, sq_nonneg py]
    simp [hx, hy]
  · have hne : (⟨px, py⟩ : ℂ) ≠ 0 := by
      intro h
      rw [Complex.ext_iff] at h
      simp at h
      exact h0 (by rw [h.1, h.2]; ring)
    rw [Complex.cos_arg hne, Complex.abs_apply, Complex.normSq_mk]
    have hpos : 0 < Real.sqrt (px * px + py * py) := by
      apply Real.sqrt_pos.mpr
      rcases lt_or_eq_of_le (add_nonneg (mul_self_nonneg px) (mul_self_nonneg py)) with h | h
      · exact h
      · exact absurd h.symm h0
    field_simp

lemma recon_sin_lon (px py : ℝ) :
    Real.sqrt (px * px + py * py) * Real.sin (arctan2 py px) = py := by
  unfold arctan2
  rw [Complex.sin_arg]
  rcases eq_or_ne (px * px + py * py) 0 with h0 | h0
  · have hy : py = 0 := by nlinarith [sq_nonneg px, sq_nonneg py]
    simp [hy]
  · rw [Complex.abs_apply, Complex.normSq_mk]
    have hpos : 0 < Real.sqrt (px * px + py * py) := by
      apply Real.sqrt_pos.mpr
      rcases lt_or_eq_of_le (add_nonneg (mul_self_nonneg px) (mul_self_nonneg py)) with h | h
      · exact h
      · exact absurd h.symm h0
    field_simp

/-! ### Slerp trigonometric identities -/

lemma slerp_weight_a (delta s : ℝ) :
    Real.sin ((1 - s) * delta) + Real.sin (s * delta) * Real.cos delta =
      Real.cos (s * delta) * Real.sin delta := by
  have h : (1 - s) * delta = delta - s * delta := by ring
  rw [h, Real.sin_sub]
  ring

lemma slerp_weight_b (delta s : ℝ) :
    Real.sin (s * delta) + Real.sin ((1 - s) * delta) * Real.cos delta =
      Real.cos ((1 - s) * delta) * Real.sin delta := by
  have h := slerp_weight_a delta (1 - s)
  have hs : (1 - (1 - s)) * delta = s * delta := by ring
  rw [hs] at h
  exact h

lemma slerp_norm (delta s : ℝ) :
    Real.sin ((1 - s) * delta) * Real.sin ((1 - s) * delta) +
      2 * (Real.sin ((1 - s) * delta) * Real.sin (s * delta) * Real.cos delta) +
      Real.sin (s * delta) * Real.sin (s * delta) =
      Real.sin delta * Real.sin delta := by
  have h : (1 - s) * delta = delta - s * delta := by ring
  rw [h, Real.sin_sub]
  have h1 := Real.sin_sq_add_cos_sq (s * delta)
  have h2 := Real.sin_sq_add_cos_sq delta
  nlinarith [h1, h2]

/-! ### The central angle as a Euclidean dot product -/

lemma unit_vector (a b : ℝ) :
    (Real.cos a * Real.cos b) * (Real.cos a * Real.cos b) +
      (Real.cos a * Real.sin b) * (Real.cos a * Real.sin b) +
      Real.sin a * Real.sin a = 1 := by
  have h1 := Real.sin_sq_add_cos_sq a
  have h2 := Real.sin_sq_add_cos_sq b
  linear_combination (Real.cos a) ^ 2 * h2 + h1

lemma gc_delta_comm (p1 p2 q1 q2 : ℝ) :
    gc_delta p1 p2 q1 q2 = gc_delta q1 q2 p1 p2 := by
  unfold gc_delta central_angle
  rw [Real.cos_sub, Real.cos_sub]
  congr 1
  ring

/-- The distance from a point given in degrees to the spherical image of a
unit Cartesian vector `(px, py, pz)` is the arccosine of the dot product. -/
lemma gc_delta_recon (lat lon px py pz : ℝ)
    (hp : px * px + py * py + pz * pz = 1) :
    gc_delta lat lon (arctan2 pz (Real.sqrt (px * px + py * py)) * 180 / Real.pi)
        (arctan2 py px * 180 / Real.pi) =
      Real.arccos ((Real.cos (to_radians lat) * Real.cos (to_radians lon)) * px +
        (Real.cos (to_radians lat) * Real.sin (to_radians lon)) * py +
        Real.sin (to_radians lat) * pz) := by
  unfold gc_delta central_angle
  rw [to_radians_leftInv, to_radians_leftInv, Real.cos_sub]
  congr 1
  have h1 := recon_sin_lat hp
  have h2 := recon_cos_lat hp
  have h3 := recon_cos_lon px py
  have h4 := recon_sin_lon px py
  linear_combination Real.sin (to_radians lat) * h1 +
    Real.cos (to_radians lat) *
      (Real.cos (arctan2 py px) * Real.cos (to_radians lon) +
        Real.sin (arctan2 py px) * Real.sin (to_radians lon)) * h2 +
    (Real.cos (to_radians lat) * Real.cos (to_radians lon)) * h3 +
    (Real.cos (to_radians lat) * Real.sin (to_radians lon)) * h4

/-! ### The key slerp property of the loop body -/

/-- On a non-degenerate, non-antipodal arc of central angle `d`, the path
point at fraction `s` lies at angular distance `s·d` from the first
endpoint and `(1-s)·d` from the second. -/
lemma gc_point_dist (lat1 lon1 lat2 lon2 s : ℝ)
    (hd0 : 0 < gc_delta lat1 lon1 lat2 lon2)
    (hdpi : gc_delta lat1 lon1 lat2 lon2 < Real.pi)
    (hs0 : 0 ≤ s) (hs1 : s ≤ 1) :
    gc_delta lat1 lon1
        (gc_point (to_radians lat1) (to_radians lon1) (to_radians lat2)
          (to_radians lon2) (gc_delta lat1 lon1 lat2 lon2) s).1
        (gc_point (to_radians lat1) (to_radians lon1) (to_radians lat2)
          (to_radians lon2) (gc_delta lat1 lon1 lat2 lon2) s).2 =
      s * gc_delta lat1 lon1 lat2 lon2 ∧
    gc_delta
        (gc_point (to_radians lat1) (to_radians lon1) (to_radians lat2)
          (to_radians lon2) (gc_delta lat1 lon1 lat2 lon2) s).1
        (gc_point (to_radians lat1) (to_radians lon1) (to_radians lat2)
          (to_radians lon2) (gc_delta lat1 lon1 lat2 lon2) s).2 lat2 lon2 =
      (1 - s) * gc_delta lat1 lon1 lat2 lon2 := by
  have hsin : 0 < Real.sin (gc_delta lat1 lon1 lat2 lon2) :=
    Real.sin_pos_of_pos_of_lt_pi hd0 hdpi
  set d := gc_delta lat1 lon1 lat2 lon2 with hd
  set a1 := to_radians lat1 with ha1
  set b1 := to_radians lon1 with hb1
  set a2 := to_radians lat2 with ha2
  set b2 := to_radians lon2 with hb2
  have hEd : d = Real.arccos (Real.sin a1 * Real.sin a2 +
      Real.cos a1 * Real.cos a2 * Real.cos (b2 - b1)) := rfl
  set E := Real.sin a1 * Real.sin a2 +
      Real.cos a1 * Real.cos a2 * Real.cos (b2 - b1) with hE
  have hE1 : E < 1 := Real.arccos_pos.mp (hEd ▸ hd0)
  have hE2 : -1 < E := by
    by_contra hcon
    push_neg at hcon
    have hdp : d = Real.pi := by rw [hEd]; exact Real.arccos_eq_pi.mpr hcon
    rw [hdp] at hdpi
    exact lt_irrefl _ hdpi
  have hcosd : Real.cos d = E := by
    rw [hEd]
    exact Real.cos_arccos hE2.le hE1.le
  have hdotE : (Real.cos a1 * Real.cos b1) * (Real.cos a2 * Real.cos b2) +
      (Real.cos a1 * Real.sin b1) * (Real.cos a2 * Real.sin b2) +
      Real.sin a1 * Real.sin a2 = E := by
    rw [hE, Real.cos_sub]
    ring
  have hgc : gc_point a1 b1 a2 b2 d s =
      (arctan2
          (Real.sin ((1 - s) * d) / Real.sin d * Real.sin a1 +
            Real.sin (s * d) / Real.sin d * Real.sin a2)
          (Real.sqrt
            ((Real.sin ((1 - s) * d) / Real.sin d * Real.cos a1 * Real.cos b1 +
              Real.sin (s * d) / Real.sin d * Real.cos a2 * Real.cos b2) *
             (Real.sin ((1 - s) * d) / Real.sin d * Real.cos a1 * Real.cos b1 +
              Real.sin (s * d) / Real.sin d * Real.cos a2 * Real.cos b2) +
             (Real.sin ((1 - s) * d) / Real.sin d * Real.cos a1 * Real.sin b1 +
              Real.sin (s * d) / Real.sin d * Real.cos a2 * Real.sin b2) *
             (Real.sin ((1 - s) * d) / Real.sin d * Real.cos a1 * Real.sin b1 +
              Real.sin (s * d) / Real.sin d * Real.cos a2 * Real.sin b2))) *
        180 / Real.pi,
       arctan2
          (Real.sin ((1 - s) * d) / Real.sin d * Real.cos a1 * Real.sin b1 +
            Real.sin (s * d) / Real.sin d * Real.cos a2 * Real.sin b2)
          (Real.sin ((1 - s) * d) / Real.sin d * Real.cos a1 * Real.cos b1 +
            Real.sin (s * d) / Real.sin d * Real.cos a2 * Real.cos b2) *
        180 / Real.pi) := rfl
  set Aw := Real.sin ((1 - s) * d) / Real.sin d with hAw
  set Bw := Real.sin (s * d) / Real.sin d with hBw
  set px := Aw * Real.cos a1 * Real.cos b1 + Bw * Real.cos a2 * Real.cos b2 with hpx
  set py := Aw * Real.cos a1 * Real.sin b1 + Bw * Real.cos a2 * Real.sin b2 with hpy
  set pz := Aw * Real.sin a1 + Bw * Real.sin a2 with hpz
  have hunita := unit_vector a1 b1
  have hunitb := unit_vector a2 b2
  have hQ : Aw * Aw + 2 * (Aw * Bw * E) + Bw * Bw = 1 := by
    rw [hAw, hBw, ← hcosd]
    have hns := hsin.ne'
    field_simp
    linear_combination slerp_norm d s
  have hp : px * px + py * py + pz * pz = 1 := by
    rw [hpx, hpy, hpz]
    linear_combination (Aw * Aw) * hunita + (Bw * Bw) * hunitb +
      (2 * Aw * Bw) * hdotE + hQ
  have hdotA : (Real.cos a1 * Real.cos b1) * px +
      (Real.cos a1 * Real.sin b1) * py + Real.sin a1 * pz =
      Real.cos (s * d) := by
    have hAB : Aw + Bw * E = Real.cos (s * d) := by
      rw [hAw, hBw, ← hcosd]
      have hns := hsin.ne'
      field_simp
      linear_combination slerp_weight_a d s
    rw [hpx, hpy, hpz]
    linear_combination Aw * hunita + Bw * hdotE + hAB
  have hdotB : (Real.cos a2 * Real.cos b2) * px +
      (Real.cos a2 * Real.sin b2) * py + Real.sin a2 * pz =
      Real.cos ((1 - s) * d) := by
    have hAB : Aw * E + Bw = Real.cos ((1 - s) * d) := by
      rw [hAw, hBw, ← hcosd]
      have hns := hsin.ne'
      field_simp
      linear_combination slerp_weight_b d s
    rw [hpx, hpy, hpz]
    linear_combination Bw * hunitb + Aw * (by linear_combination hdotE :
      (Real.cos a2 * Real.cos b2) * (Real.cos a1 * Real.cos b1) +
      (Real.cos a2 * Real.sin b2) * (Real.cos a1 * Real.sin b1) +
      Real.sin a2 * Real.sin a1 = E) + hAB
  have hsd_le : s * d ≤ Real.pi := by
    have h1 : s * d ≤ 1 * d := mul_le_mul_of_nonneg_right hs1 hd0.le
    rw [one_mul] at h1
    exact h1.trans hdpi.le
  have hsd_ge : 0 ≤ s * d := mul_nonneg hs0 hd0.le
  have hsd'_le : (1 - s) * d ≤ Real.pi := by
    have h1 : (1 - s) * d ≤ 1 * d :=
      mul_le_mul_of_nonneg_right (by linarith) hd0.le
    rw [one_mul] at h1
    exact h1.trans hdpi.le
  have hsd'_ge : 0 ≤ (1 - s) * d := mul_nonneg (by linarith) hd0.le
  rw [hgc]
  constructor
  · rw [gc_delta_recon lat1 lon1 px py pz hp, ← ha1, ← hb1, hdotA,
      Real.arccos_cos hsd_ge hsd_le]
  · rw [gc_delta_comm, gc_delta_recon lat2 lon2 px py pz hp, ← ha2, ← hb2,
      hdotB, Real.arccos_cos hsd'_ge hsd'_le]

/-! ### List-level structure of the output -/

lemma linspace01_length (n : ℕ) : (linspace01 n).length = n := by
  unfold linspace01
  rw [List.length_map, List.length_range]

lemma linspace01_getElem? {n k : ℕ} (h : k < n) :
    (linspace01 n)[k]? = some ((k : ℝ) / ((n : ℝ) - 1)) := by
  unfold linspace01
  rw [List.getElem?_map, List.getElem?_range h]
  rfl

lemma gcp_length (lat1 lon1 lat2 lon2 : ℝ) (n : ℕ) :
    (great_circle_points lat1 lon1 lat2 lon2 n).1.length = n ∧
    (great_circle_points lat1 lon1 lat2 lon2 n).2.length = n := by
  constructor
  · show (List.map Prod.fst (List.map (gc_point (to_radians lat1)
      (to_radians lon1) (to_radians lat2) (to_radians lon2)
      (gc_delta lat1 lon1 lat2 lon2)) (linspace01 n))).length = n
    rw [List.length_map, List.length_map, linspace01_length]
  · show (List.map Prod.snd (List.map (gc_point (to_radians lat1)
      (to_radians lon1) (to_radians lat2) (to_radians lon2)
      (gc_delta lat1 lon1 lat2 lon2)) (linspace01 n))).length = n
    rw [List.length_map, List.length_map, linspace01_length]

lemma gcp_getElem? (lat1 lon1 lat2 lon2 : ℝ) {n k : ℕ} (h : k < n) :
    (great_circle_points lat1 lon1 lat2 lon2 n).1[k]? =
      some ((gc_point (to_radians lat1) (to_radians lon1) (to_radians lat2)
        (to_radians lon2) (gc_delta lat1 lon1 lat2 lon2)
        ((k : ℝ) / ((n : ℝ) - 1))).1) ∧
    (great_circle_points lat1 lon1 lat2 lon2 n).2[k]? =
      some ((gc_point (to_radians lat1) (to_radians lon1) (to_radians lat2)
        (to_radians lon2) (gc_delta lat1 lon1 lat2 lon2)
        ((k : ℝ) / ((n : ℝ) - 1))).2) := by
  constructor
  · show (List.map Prod.fst (List.map (gc_point (to_radians lat1)
      (to_radians lon1) (to_radians lat2) (to_radians lon2)
      (gc_delta lat1 lon1 lat2 lon2)) (linspace01 n)))[k]? = _
    rw [List.getElem?_map, List.getElem?_map, linspace01_getElem? h]
    rfl
  · show (List.map Prod.snd (List.map (gc_point (to_radians lat1)
      (to_radians lon1) (to_radians lat2) (to_radians lon2)
      (gc_delta lat1 lon1 lat2 lon2)) (linspace01 n)))[k]? = _
    rw [List.getElem?_map, List.getElem?_map, linspace01_getElem? h]
    rfl

lemma gcp_mem_fst {lat1 lon1 lat2 lon2 : ℝ} {n k : ℕ} {v : ℝ}
    (h : (great_circle_points lat1 lon1 lat2 lon2 n).1[k]? = some v) :
    k < n ∧ v = (gc_point (to_radians lat1) (to_radians lon1)
      (to_radians lat2) (to_radians lon2) (gc_delta lat1 lon1 lat2 lon2)
      ((k : ℝ) / ((n : ℝ) - 1))).1 := by
  have hk : k < n := by
    by_contra hcon
    push_neg at hcon
    rw [List.getElem?_eq_none
      (by rw [(gcp_length lat1 lon1 lat2 lon2 n).1]; exact hcon)] at h
    exact Option.noConfusion h
  refine ⟨hk, ?_⟩
  rw [(gcp_getElem? lat1 lon1 lat2 lon2 hk).1] at h
  exact (Option.some.inj h).symm

lemma gcp_mem_snd {lat1 lon1 lat2 lon2 : ℝ} {n k : ℕ} {v : ℝ}
    (h : (great_circle_points lat1 lon1 lat2 lon2 n).2[k]? = some v) :
    k < n ∧ v = (gc_point (to_radians lat1) (to_radians lon1)
      (to_radians lat2) (to_radians lon2) (gc_delta lat1 lon1 lat2 lon2)
      ((k : ℝ) / ((n : ℝ) - 1))).2 := by
  have hk : k < n := by
    by_contra hcon
    push_neg at hcon
    rw [List.getElem?_eq_none
      (by rw [(gcp_length lat1 lon1 lat2 lon2 n).2]; exact hcon)] at h
    exact Option.noConfusion h
  refine ⟨hk, ?_⟩
  rw [(gcp_getElem? lat1 lon1 lat2 lon2 hk).2] at h
  exact (Option.some.inj h).symm

/-! ### Range conversions for valid coordinates -/

lemma to_radians_neg_90 : to_radians (-90) = -(Real.pi / 2) := by
  unfold to_radians
  ring

lemma lat_radians_bounds {lat : ℝ} (h1 : -90 < lat) (h2 : lat < 90) :
    -(Real.pi / 2) < to_radians lat ∧ to_radians lat < Real.pi / 2 := by
  constructor
  · have h := to_radians_strictMono h1
    rwa [to_radians_neg_90] at h
  · have h := to_radians_strictMono h2
    rwa [to_radians_90] at h

lemma lon_radians_bounds {lon : ℝ} (h1 : -180 < lon) (h2 : lon ≤ 180) :
    -Real.pi < to_radians lon ∧ to_radians lon ≤ Real.pi := by
  constructor
  · have h := to_radians_strictMono h1
    rwa [to_radians_neg_180] at h
  · have h := to_radians_mono h2
    rwa [to_radians_180] at h

/-! ### The loop body hits the endpoints exactly at `s = 0` and `s = 1` -/

lemma gc_point_first (lat1 lon1 a2 b2 d : ℝ)
    (h1 : -90 < lat1) (h2 : lat1 < 90) (h3 : -180 < lon1) (h4 : lon1 ≤ 180)
    (hsin : Real.sin d ≠ 0) :
    gc_point (to_radians lat1) (to_radians lon1) a2 b2 d 0 = (lat1, lon1) := by
  obtain ⟨hla, hlb⟩ := lat_radians_bounds h1 h2
  obtain ⟨hoa, hob⟩ := lon_radians_bounds h3 h4
  set a := to_radians lat1 with ha
  set b := to_radians lon1 with hb
  have hcos : 0 < Real.cos a := Real.cos_pos_of_mem_Ioo ⟨hla, hlb⟩
  have hgc : gc_point a b a2 b2 d 0 =
      (arctan2
          (Real.sin ((1 - 0) * d) / Real.sin d * Real.sin a +
            Real.sin (0 * d) / Real.sin d * Real.sin a2)
          (Real.sqrt
            ((Real.sin ((1 - 0) * d) / Real.sin d * Real.cos a * Real.cos b +
              Real.sin (0 * d) / Real.sin d * Real.cos a2 * Real.cos b2) *
             (Real.sin ((1 - 0) * d) / Real.sin d * Real.cos a * Real.cos b +
              Real.sin (0 * d) / Real.sin d * Real.cos a2 * Real.cos b2) +
             (Real.sin ((1 - 0) * d) / Real.sin d * Real.cos a * Real.sin b +
              Real.sin (0 * d) / Real.sin d * Real.cos a2 * Real.sin b2) *
             (Real.sin ((1 - 0) * d) / Real.sin d * Real.cos a * Real.sin b +
              Real.sin (0 * d) / Real.sin d * Real.cos a2 * Real.sin b2))) *
        180 / Real.pi,
       arctan2
          (Real.sin ((1 - 0) * d) / Real.sin d * Real.cos a * Real.sin b +
            Real.sin (0 * d) / Real.sin d * Real.cos a2 * Real.sin b2)
          (Real.sin ((1 - 0) * d) / Real.sin d * Real.cos a * Real.cos b +
            Real.sin (0 * d) / Real.sin d * Real.cos a2 * Real.cos b2) *
        180 / Real.pi) := rfl
  have e1 : Real.sin ((1 - (0 : ℝ)) * d) / Real.sin d = 1 := by
    rw [show ((1 : ℝ) - 0) * d = d by ring]
    exact div_self hsin
  have e2 : Real.sin ((0 : ℝ) * d) / Real.sin d = 0 := by
    rw [show ((0 : ℝ)) * d = 0 by ring, Real.sin_zero, zero_div]
  rw [hgc, e1, e2]
  have ez : 1 * Real.sin a + 0 * Real.sin a2 = Real.sin a := by ring
  have ex : 1 * Real.cos a * Real.cos b + 0 * Real.cos a2 * Real.cos b2 =
      Real.cos a * Real.cos b := by ring
  have ey : 1 * Real.cos a * Real.sin b + 0 * Real.cos a2 * Real.sin b2 =
      Real.cos a * Real.sin b := by ring
  rw [ez, ex, ey]
  have esq : Real.cos a * Real.cos b * (Real.cos a * Real.cos b) +
      Real.cos a * Real.sin b * (Real.cos a * Real.sin b) =
      Real.cos a * Real.cos a := by
    linear_combination (Real.cos a) ^ 2 * Real.sin_sq_add_cos_sq b
  rw [esq, Real.sqrt_mul_self hcos.le]
  have hpa : -Real.pi < a := by nlinarith [Real.pi_pos]
  have hpa' : a ≤ Real.pi := by nlinarith [Real.pi_pos]
  rw [arctan2_cos_sin hpa hpa', arctan2_mul_cos_sin hcos hoa hob, ha, hb,
    to_radians_rightInv, to_radians_rightInv]

lemma gc_point_last (a1 b1 lat2 lon2 d : ℝ)
    (h1 : -90 < lat2) (h2 : lat2 < 90) (h3 : -180 < lon2) (h4 : lon2 ≤ 180)
    (hsin : Real.sin d ≠ 0) :
    gc_point a1 b1 (to_radians lat2) (to_radians lon2) d 1 = (lat2, lon2) := by
  obtain ⟨hla, hlb⟩ := lat_radians_bounds h1 h2
  obtain ⟨hoa, hob⟩ := lon_radians_bounds h3 h4
  set a := to_radians lat2 with ha
  set b := to_radians lon2 with hb
  have hcos : 0 < Real.cos a := Real.cos_pos_of_mem_Ioo ⟨hla, hlb⟩
  have hgc : gc_point a1 b1 a b d 1 =
      (arctan2
          (Real.sin ((1 - 1) * d) / Real.sin d * Real.sin a1 +
            Real.sin (1 * d) / Real.sin d * Real.sin a)
          (Real.sqrt
            ((Real.sin ((1 - 1) * d) / Real.sin d * Real.cos a1 * Real.cos b1 +
              Real.sin (1 * d) / Real.sin d * Real.cos a * Real.cos b) *
             (Real.sin ((1 - 1) * d) / Real.sin d * Real.cos a1 * Real.cos b1 +
              Real.sin (1 * d) / Real.sin d * Real.cos a * Real.cos b) +
             (Real.sin ((1 - 1) * d) / Real.sin d * Real.cos a1 * Real.sin b1 +
              Real.sin (1 * d) / Real.sin d * Real.cos a * Real.sin b) *
             (Real.sin ((1 - 1) * d) / Real.sin d * Real.cos a1 * Real.sin b1 +
              Real.sin (1 * d) / Real.sin d * Real.cos a * Real.sin b))) *
        180 / Real.pi,
       arctan2
          (Real.sin ((1 - 1) * d) / Real.sin d * Real.cos a1 * Real.sin b1 +
            Real.sin (1 * d) / Real.sin d * Real.cos a * Real.sin b)
          (Real.sin ((1 - 1) * d) / Real.sin d * Real.cos a1 * Real.cos b1 +
            Real.sin (1 * d) / Real.sin d * Real.cos a * Real.cos b) *
        180 / Real.pi) := rfl
  have e1 : Real.sin ((1 - (1 : ℝ)) * d) / Real.sin d = 0 := by
    rw [show ((1 : ℝ) - 1) * d = 0 by ring, Real.sin_zero, zero_div]
  have e2 : Real.sin ((1 : ℝ) * d) / Real.sin d = 1 := by
    rw [show ((1 : ℝ)) * d = d by ring]
    exact div_self hsin
  rw [hgc, e1, e2]
  have ez : 0 * Real.sin a1 + 1 * Real.sin a = Real.sin a := by ring
  have ex : 0 * Real.cos a1 * Real.cos b1 + 1 * Real.cos a * Real.cos b =
      Real.cos a * Real.cos b := by ring
  have ey : 0 * Real.cos a1 * Real.sin b1 + 1 * Real.cos a * Real.sin b =
      Real.cos a * Real.sin b := by ring
  rw [ez, ex, ey]
  have esq : Real.cos a * Real.cos b * (Real.cos a * Real.cos b) +
      Real.cos a * Real.sin b * (Real.cos a * Real.sin b) =
      Real.cos a * Real.cos a := by
    linear_combination (Real.cos a) ^ 2 * Real.sin_sq_add_cos_sq b
  rw [esq, Real.sqrt_mul_self hcos.le]
  have hpa : -Real.pi < a := by nlinarith [Real.pi_pos]
  have hpa' : a ≤ Real.pi := by nlinarith [Real.pi_pos]
  rw [arctan2_cos_sin hpa hpa', arctan2_mul_cos_sin hcos hoa hob, ha, hb,
    to_radians_rightInv, to_radians_rightInv]

/-! ### Direction symmetry -/

lemma gc_point_swap (a1 b1 a2 b2 d s : ℝ) :
    gc_point a2 b2 a1 b1 d s = gc_point a1 b1 a2 b2 d (1 - s) := by
  simp only [gc_point]
  rw [show (1 - (1 - s)) * d = s * d by ring]
  have hz : Real.sin ((1 - s) * d) / Real.sin d * Real.sin a2 +
      Real.sin (s * d) / Real.sin d * Real.sin a1 =
      Real.sin (s * d) / Real.sin d * Real.sin a1 +
      Real.sin ((1 - s) * d) / Real.sin d * Real.sin a2 := by ring
  have hx : Real.sin ((1 - s) * d) / Real.sin d * Real.cos a2 * Real.cos b2 +
      Real.sin (s * d) / Real.sin d * Real.cos a1 * Real.cos b1 =
      Real.sin (s * d) / Real.sin d * Real.cos a1 * Real.cos b1 +
      Real.sin ((1 - s) * d) / Real.sin d * Real.cos a2 * Real.cos b2 := by ring
  have hy : Real.sin ((1 - s) * d) / Real.sin d * Real.cos a2 * Real.sin b2 +
      Real.sin (s * d) / Real.sin d * Real.cos a1 * Real.sin b1 =
      Real.sin (s * d) / Real.sin d * Real.cos a1 * Real.sin b1 +
      Real.sin ((1 - s) * d) / Real.sin d * Real.cos a2 * Real.sin b2 := by ring
  rw [hz, hx, hy]

lemma linspace01_reverse {n : ℕ} (hn : 2 ≤ n) :
    (linspace01 n).reverse = (linspace01 n).map (fun s : ℝ => 1 - s) := by
  apply List.ext_getElem?
  intro i
  rcases lt_or_ge i n with hi | hi
  · rw [List.getElem?_reverse (by rw [linspace01_length]; exact hi),
      linspace01_length, List.getElem?_map,
      linspace01_getElem? (by omega : n - 1 - i < n), linspace01_getElem? hi]
    have h1 : ((n - 1 - i : ℕ) : ℝ) = (n : ℝ) - 1 - (i : ℝ) := by
      have hi' : i ≤ n - 1 := by omega
      have h1n : 1 ≤ n := by omega
      push_cast [Nat.cast_sub hi', Nat.cast_sub h1n]
      ring
    have hne : (n : ℝ) - 1 ≠ 0 := by
      have h2 : (2 : ℝ) ≤ (n : ℝ) := by exact_mod_cast hn
      linarith
    simp only [Option.map_some']
    congr 1
    rw [h1]
    field_simp
  · rw [List.getElem?_eq_none (by simp [linspace01_length]; omega),
      List.getElem?_eq_none (by simp [linspace01_length]; omega)]

lemma gcp_reverse (lat1 lon1 lat2 lon2 : ℝ) {n : ℕ} (hn : 2 ≤ n) :
    (great_circle_points lat1 lon1 lat2 lon2 n).1.reverse =
      (great_circle_points lat2 lon2 lat1 lon1 n).1 ∧
    (great_circle_points lat1 lon1 lat2 lon2 n).2.reverse =
      (great_circle_points lat2 lon2 lat1 lon1 n).2 := by
  have hd : gc_delta lat2 lon2 lat1 lon1 = gc_delta lat1 lon1 lat2 lon2 :=
    gc_delta_comm _ _ _ _
  constructor
  · show (List.map Prod.fst (List.map (gc_point (to_radians lat1)
        (to_radians lon1) (to_radians lat2) (to_radians lon2)
        (gc_delta lat1 lon1 lat2 lon2)) (linspace01 n))).reverse =
      List.map Prod.fst (List.map (gc_point (to_radians lat2)
        (to_radians lon2) (to_radians lat1) (to_radians lon1)
        (gc_delta lat2 lon2 lat1 lon1)) (linspace01 n))
    rw [← List.map_reverse, ← List.map_reverse, linspace01_reverse hn,
      List.map_map, List.map_map, List.map_map, hd]
    apply List.map_congr_left
    intro s _
    simp only [Function.comp_apply]
    rw [gc_point_swap (to_radians lat1) (to_radians lon1) (to_radians lat2)
      (to_radians lon2) (gc_delta lat1 lon1 lat2 lon2) s]
  · show (List.map Prod.snd (List.map (gc_point (to_radians lat1)
        (to_radians lon1) (to_radians lat2) (to_radians lon2)
        (gc_delta lat1 lon1 lat2 lon2)) (linspace01 n))).reverse =
      List.map Prod.snd (List.map (gc_point (to_radians lat2)
        (to_radians lon2) (to_radians lat1) (to_radians lon1)
        (gc_delta lat2 lon2 lat1 lon1)) (linspace01 n))
    rw [← List.map_reverse, ← List.map_reverse, linspace01_reverse hn,
      List.map_map, List.map_map, List.map_map, hd]
    apply List.map_congr_left
    intro s _
    simp only [Function.comp_apply]
    rw [gc_point_swap (to_radians lat1) (to_radians lon1) (to_radians lat2)
      (to_radians lon2) (gc_delta lat1 lon1 lat2 lon2) s]

/-! ### Concrete evaluations -/

lemma gc_delta_antipodal : gc_delta 0 0 0 180 = Real.pi := by
  unfold gc_delta central_angle
  rw [to_radians_zero, to_radians_180]
  norm_num [Real.cos_pi, Real.arccos_neg_one]

lemma gc_delta_same : gc_delta 90 0 90 0 = 0 := by
  unfold gc_delta central_angle
  rw [to_radians_zero, to_radians_90]
  norm_num [Real.sin_pi_div_two, Real.cos_pi_div_two, Real.arccos_one]

lemma gc_delta_quarter : gc_delta 0 0 0 90 = Real.pi / 2 := by
  unfold gc_delta central_angle
  rw [to_radians_zero, to_radians_90]
  norm_num [Real.cos_pi_div_two, Real.arccos_zero]

lemma gc_delta_invalid_lat : gc_delta 270 0 0 90 = Real.pi / 2 := by
  unfold gc_delta central_angle
  rw [to_radians_zero, to_radians_90, to_radians_270]
  norm_num [Real.sin_add, Real.cos_add, Real.cos_pi_div_two, Real.arccos_zero]

lemma sin_gc_delta_quarter_ne : Real.sin (gc_delta 0 0 0 90) ≠ 0 := by
  rw [gc_delta_quarter, Real.sin_pi_div_two]
  norm_num

lemma gc_delta_quarter_pos : 0 < gc_delta 0 0 0 90 := by
  rw [gc_delta_quarter]
  positivity

lemma gc_delta_quarter_lt_pi : gc_delta 0 0 0 90 < Real.pi := by
  rw [gc_delta_quarter]
  linarith [Real.pi_pos]

/-- When `sin delta = 0` every loop iteration divides by zero; with the
`x / 0 = 0` convention every produced point is `(0, 0)` (numpy instead
produces NaN entries at the same spots), and no error of any kind is
raised. -/
lemma gc_point_sin_delta_zero (a1 b1 a2 b2 d s : ℝ) (h : Real.sin d = 0) :
    gc_point a1 b1 a2 b2 d s = (0, 0) := by
  simp [gc_point, h, arctan2_zero_zero]

lemma gcp_const_zero {lat1 lon1 lat2 lon2 : ℝ}
    (h : Real.sin (gc_delta lat1 lon1 lat2 lon2) = 0) (n : ℕ) :
    great_circle_points lat1 lon1 lat2 lon2 n =
      (List.replicate n 0, List.replicate n 0) := by
  have hmap : (linspace01 n).map
      (gc_point (to_radians lat1) (to_radians lon1) (to_radians lat2)
        (to_radians lon2) (gc_delta lat1 lon1 lat2 lon2)) =
      List.replicate n ((0 : ℝ), (0 : ℝ)) := by
    rw [List.eq_replicate_iff]
    constructor
    · rw [List.length_map, linspace01_length]
    · intro b hb
      obtain ⟨s, _, hs⟩ := List.mem_map.mp hb
      rw [← hs, gc_point_sin_delta_zero _ _ _ _ _ _ h]
  have h1 : (great_circle_points lat1 lon1 lat2 lon2 n).1 =
      List.replicate n 0 := by
    show List.map Prod.fst ((linspace01 n).map
      (gc_point (to_radians lat1) (to_radians lon1) (to_radians lat2)
        (to_radians lon2) (gc_delta lat1 lon1 lat2 lon2))) = List.replicate n 0
    rw [hmap, List.map_replicate]
  have h2 : (great_circle_points lat1 lon1 lat2 lon2 n).2 =
      List.replicate n 0 := by
    show List.map Prod.snd ((linspace01 n).map
      (gc_point (to_radians lat1) (to_radians lon1) (to_radians lat2)
        (to_radians lon2) (gc_delta lat1 lon1 lat2 lon2))) = List.replicate n 0
    rw [hmap, List.map_replicate]
  exact Prod.ext h1 h2

/-- The loop body at `s = 0`, before any simplification of the first
endpoint's Cartesian coordinates. -/
lemma gc_point_zero_raw (a1 b1 a2 b2 d : ℝ) (hsin : Real.sin d ≠ 0) :
    gc_point a1 b1 a2 b2 d 0 =
      (arctan2 (Real.sin a1)
        (Real.sqrt (Real.cos a1 * Real.cos b1 * (Real.cos a1 * Real.cos b1) +
          Real.cos a1 * Real.sin b1 * (Real.cos a1 * Real.sin b1))) *
        180 / Real.pi,
       arctan2 (Real.cos a1 * Real.sin b1) (Real.cos a1 * Real.cos b1) *
        180 / Real.pi) := by
  have hgc : gc_point a1 b1 a2 b2 d 0 =
      (arctan2
          (Real.sin ((1 - 0) * d) / Real.sin d * Real.sin a1 +
            Real.sin (0 * d) / Real.sin d * Real.sin a2)
          (Real.sqrt
            ((Real.sin ((1 - 0) * d) / Real.sin d * Real.cos a1 * Real.cos b1 +
              Real.sin (0 * d) / Real.sin d * Real.cos a2 * Real.cos b2) *
             (Real.sin ((1 - 0) * d) / Real.sin d * Real.cos a1 * Real.cos b1 +
              Real.sin (0 * d) / Real.sin d * Real.cos a2 * Real.cos b2) +
             (Real.sin ((1 - 0) * d) / Real.sin d * Real.cos a1 * Real.sin b1 +
              Real.sin (0 * d) / Real.sin d * Real.cos a2 * Real.sin b2) *
             (Real.sin ((1 - 0) * d) / Real.sin d * Real.cos a1 * Real.sin b1 +
              Real.sin (0 * d) / Real.sin d * Real.cos a2 * Real.sin b2))) *
        180 / Real.pi,
       arctan2
          (Real.sin ((1 - 0) * d) / Real.sin d * Real.cos a1 * Real.sin b1 +
            Real.sin (0 * d) / Real.sin d * Real.cos a2 * Real.sin b2)
          (Real.sin ((1 - 0) * d) / Real.sin d * Real.cos a1 * Real.cos b1 +
            Real.sin (0 * d) / Real.sin d * Real.cos a2 * Real.cos b2) *
        180 / Real.pi) := rfl
  have e1 : Real.sin ((1 - (0 : ℝ)) * d) / Real.sin d = 1 := by
    rw [show ((1 : ℝ) - 0) * d = d by ring]
    exact div_self hsin
  have e2 : Real.sin ((0 : ℝ) * d) / Real.sin d = 0 := by
    rw [show ((0 : ℝ)) * d = 0 by ring, Real.sin_zero, zero_div]
  rw [hgc, e1, e2]
  have ez : 1 * Real.sin a1 + 0 * Real.sin a2 = Real.sin a1 := by ring
  have ex : 1 * Real.cos a1 * Real.cos b1 + 0 * Real.cos a2 * Real.cos b2 =
      Real.cos a1 * Real.cos b1 := by ring
  have ey : 1 * Real.cos a1 * Real.sin b1 + 0 * Real.cos a2 * Real.sin b2 =
      Real.cos a1 * Real.sin b1 := by ring
  rw [ez, ex, ey]

lemma sin_three_half_pi : Real.sin (Real.pi + Real.pi / 2) = -1 := by
  rw [Real.sin_add]
  norm_num [Real.cos_pi_div_two, Real.sin_pi_div_two]

lemma cos_three_half_pi : Real.cos (Real.pi + Real.pi / 2) = 0 := by
  rw [Real.cos_add]
  norm_num [Real.cos_pi_div_two, Real.sin_pi_div_two]

/-- The first output point for the out-of-range latitude `270`: the code
happily computes the point for the wrapped latitude `-90`. -/
lemma gc_point_invalid_first (a2 b2 d : ℝ) (hsin : Real.sin d ≠ 0) :
    gc_point (to_radians 270) (to_radians 0) a2 b2 d 0 = (-90, 0) := by
  rw [to_radians_270, to_radians_zero,
    gc_point_zero_raw _ _ _ _ _ hsin, sin_three_half_pi, cos_three_half_pi]
  norm_num [Real.sqrt_zero, arctan2_neg_one_zero, arctan2_zero_zero]
  rw [div_eq_iff Real.pi_ne_zero]
  ring

lemma linspace01_two : linspace01 2 = [0, 1] := by
  unfold linspace01
  norm_num [List.range_succ]

/-- Witness evaluations on the equatorial quarter arc from `(0,0)` to
`(0,90)` with two sample points. -/
lemma gcp_q_first_fst : (great_circle_points 0 0 0 90 2).1[0]? = some 0 := by
  rw [(gcp_getElem? 0 0 0 90 (by norm_num : (0:ℕ) < 2)).1]
  congr 1
  rw [show ((0:ℕ):ℝ) / (((2:ℕ):ℝ) - 1) = 0 by norm_num,
    gc_point_first 0 0 _ _ _ (by norm_num) (by norm_num) (by norm_num)
      (by norm_num) sin_gc_delta_quarter_ne]

lemma gcp_q_first_snd : (great_circle_points 0 0 0 90 2).2[0]? = some 0 := by
  rw [(gcp_getElem? 0 0 0 90 (by norm_num : (0:ℕ) < 2)).2]
  congr 1
  rw [show ((0:ℕ):ℝ) / (((2:ℕ):ℝ) - 1) = 0 by norm_num,
    gc_point_first 0 0 _ _ _ (by norm_num) (by norm_num) (by norm_num)
      (by norm_num) sin_gc_delta_quarter_ne]

lemma gcp_q_last_fst : (great_circle_points 0 0 0 90 2).1[1]? = some 0 := by
  rw [(gcp_getElem? 0 0 0 90 (by norm_num : (1:ℕ) < 2)).1]
  congr 1
  rw [show ((1:ℕ):ℝ) / (((2:ℕ):ℝ) - 1) = 1 by norm_num,
    gc_point_last _ _ 0 90 _ (by norm_num) (by norm_num) (by norm_num)
      (by norm_num) sin_gc_delta_quarter_ne]

lemma gcp_q_last_snd : (great_circle_points 0 0 0 90 2).2[1]? = some 90 := by
  rw [(gcp_getElem? 0 0 0 90 (by norm_num : (1:ℕ) < 2)).2]
  congr 1
  rw [show ((1:ℕ):ℝ) / (((2:ℕ):ℝ) - 1) = 1 by norm_num,
    gc_point_last _ _ 0 90 _ (by norm_num) (by norm_num) (by norm_num)
      (by norm_num) sin_gc_delta_quarter_ne]

/-- Coordinate-wise refinement of the endpoint property, away from the
boundary of the coordinate ranges: for latitudes strictly inside
`(-90, 90)` and longitudes in `(-180, 180]` the first and last output
points reproduce the input coordinate pairs exactly.  (At a pole the
exact-arithmetic longitude collapses to `arctan2 0 0 = 0`, and at
longitude `-180` it comes back as `+180` — both are the same geographic
point, but not the same coordinate pair; float64 instead keeps the input
coordinates there through rounding residues such as
`cos (π/2) ≈ 6.12e-17`.) -/
lemma endpoints_exact_interior (lat1 lon1 lat2 lon2 : ℝ) (n : ℕ)
    (hn : 2 ≤ n)
    (ha1 : -90 < lat1) (ha2 : lat1 < 90) (ha3 : -180 < lon1) (ha4 : lon1 ≤ 180)
    (hb1 : -90 < lat2) (hb2 : lat2 < 90) (hb3 : -180 < lon2) (hb4 : lon2 ≤ 180)
    (hd0 : 0 < gc_delta lat1 lon1 lat2 lon2)
    (hdpi : gc_delta lat1 lon1 lat2 lon2 < Real.pi) :
    ((great_circle_points lat1 lon1 lat2 lon2 n).1[0]? = some lat1 ∧
     (great_circle_points lat1 lon1 lat2 lon2 n).2[0]? = some lon1) ∧
    ((great_circle_points lat1 lon1 lat2 lon2 n).1[n - 1]? = some lat2 ∧
     (great_circle_points lat1 lon1 lat2 lon2 n).2[n - 1]? = some lon2) := by
  have hsin : Real.sin (gc_delta lat1 lon1 lat2 lon2) ≠ 0 :=
    (Real.sin_pos_of_pos_of_lt_pi hd0 hdpi).ne'
  have h0n : 0 < n := by omega
  have hn1 : n - 1 < n := by omega
  have hfirst := gc_point_first lat1 lon1 (to_radians lat2) (to_radians lon2)
    (gc_delta lat1 lon1 lat2 lon2) ha1 ha2 ha3 ha4 hsin
  have hlast := gc_point_last (to_radians lat1) (to_radians lon1) lat2 lon2
    (gc_delta lat1 lon1 lat2 lon2) hb1 hb2 hb3 hb4 hsin
  have hcast : ((n - 1 : ℕ) : ℝ) / ((n : ℝ) - 1) = 1 := by
    have h1n : 1 ≤ n := by omega
    have hne : (n : ℝ) - 1 ≠ 0 := by
      have h2 : (2 : ℝ) ≤ (n : ℝ) := by exact_mod_cast hn
      linarith
    rw [Nat.cast_sub h1n, Nat.cast_one]
    exact div_self hne
  refine ⟨⟨?_, ?_⟩, ⟨?_, ?_⟩⟩
  · rw [(gcp_getElem? lat1 lon1 lat2 lon2 h0n).1]
    congr 1
    rw [show ((0 : ℕ) : ℝ) / ((n : ℝ) - 1) = 0 by norm_num, hfirst]
  · rw [(gcp_getElem? lat1 lon1 lat2 lon2 h0n).2]
    congr 1
    rw [show ((0 : ℕ) : ℝ) / ((n : ℝ) - 1) = 0 by norm_num, hfirst]
  · rw [(gcp_getElem? lat1 lon1 lat2 lon2 hn1).1]
    congr 1
    rw [hcast, hlast]
  · rw [(gcp_getElem? lat1 lon1 lat2 lon2 hn1).2]
    congr 1
    rw [hcast, hlast]

/-! ## Claim theorems -/

/-- C1: the spec requires an `AmbiguousPathError` for exactly antipodal
endpoints, but `great_circle_points` has no error path at all: at the
antipodal input `(0,0)-(0,180)` (central angle `π`, so `sin delta = 0`)
it returns, for every sample count `n`, two ordinary `n`-element lists —
all-zero in the real-number model where `x / 0 = 0`, NaN-filled in numpy —
instead of raising anything. -/
theorem antipodal_returns_lists (n : ℕ) :
    great_circle_points 0 0 0 180 n =
      (List.replicate n 0, List.replicate n 0) := by
  apply gcp_const_zero
  rw [gc_delta_antipodal]
  exact Real.sin_pi

/-- C2: the spec requires `interpolate(A, A, n)` to return `n` copies of
`A`, but the code has no such branch: for `A = (90, 0)` (central angle
`0`, so `sin delta = 0`) every produced point is the `0/0` fallout —
`(0,0)` in the real-number model, NaN in numpy — and in particular the
latitude list for `n = 2` is not `[90, 90]`. -/
theorem identical_no_copies :
    (∀ n : ℕ, great_circle_points 90 0 90 0 n =
      (List.replicate n 0, List.replicate n 0)) ∧
    (great_circle_points 90 0 90 0 2).1 ≠ [90, 90] := by
  have h : ∀ n : ℕ, great_circle_points 90 0 90 0 n =
      (List.replicate n 0, List.replicate n 0) := by
    intro n
    apply gcp_const_zero
    rw [gc_delta_same]
    exact Real.sin_zero
  refine ⟨h, ?_⟩
  intro hcon
  rw [h 2] at hcon
  norm_num [List.replicate] at hcon

/-- C4: the spec requires an `InvalidCoordinateError` for out-of-range
coordinates, but the code performs no validation: for the invalid
latitude `270` it silently computes a path, returning the two-point
result `([-90, 0], [0, 90])` instead of any error. -/
theorem invalid_latitude_returns_path :
    great_circle_points 270 0 0 90 2 = ([-90, 0], [0, 90]) := by
  have hsin : Real.sin (gc_delta 270 0 0 90) ≠ 0 := by
    rw [gc_delta_invalid_lat, Real.sin_pi_div_two]
    norm_num
  have h0 := gc_point_invalid_first (to_radians 0) (to_radians 90)
    (gc_delta 270 0 0 90) hsin
  have h1 := gc_point_last (to_radians 270) (to_radians 0) 0 90
    (gc_delta 270 0 0 90) (by norm_num) (by norm_num) (by norm_num)
    (by norm_num) hsin
  show (List.map Prod.fst ((linspace01 2).map (gc_point (to_radians 270)
      (to_radians 0) (to_radians 0) (to_radians 90) (gc_delta 270 0 0 90))),
    List.map Prod.snd ((linspace01 2).map (gc_point (to_radians 270)
      (to_radians 0) (to_radians 0) (to_radians 90) (gc_delta 270 0 0 90)))) =
    ([-90, 0], [0, 90])
  rw [linspace01_two]
  simp only [List.map_cons, List.map_nil]
  rw [h0, h1]

/-- C3: for every input with `sampleCount ≥ 2` and central angle strictly
between `0` and `π` (`pointA ≠ pointB`, not antipodal), the output is an
ordered pair of lists of exactly `sampleCount` latitudes/longitudes; the
first output point coincides with `pointA` and the last with `pointB` —
great-circle separation exactly `0` in the real-number model, hence
within the claimed `1e-9` degrees — and the interpolation fractions are
`k/(sampleCount-1)` for `k = 0, …, sampleCount-1`, equally spaced in
`[0, 1]` with uniform step `1/(sampleCount-1)`.  Equality of geographic
points is stated metrically (zero great-circle separation) because that
reading is insensitive to the coordinate conventions at the poles and
the date line, where exact real arithmetic and float64 round differently
(`cos (π/2)` is `0` exactly but `≈ 6.12e-17` in float64) while both
still return the endpoint itself as a point on the sphere; coordinate-wise
exact equality additionally holds away from that boundary, see
`endpoints_exact_interior`. -/
theorem endpoints_within_tolerance (lat1 lon1 lat2 lon2 : ℝ) (n : ℕ)
    (hn : 2 ≤ n)
    (hd0 : 0 < gc_delta lat1 lon1 lat2 lon2)
    (hdpi : gc_delta lat1 lon1 lat2 lon2 < Real.pi) :
    ((great_circle_points lat1 lon1 lat2 lon2 n).1.length = n ∧
     (great_circle_points lat1 lon1 lat2 lon2 n).2.length = n) ∧
    (∀ la lo, (great_circle_points lat1 lon1 lat2 lon2 n).1[0]? = some la →
      (great_circle_points lat1 lon1 lat2 lon2 n).2[0]? = some lo →
      gc_delta lat1 lon1 la lo = 0) ∧
    (∀ la lo,
      (great_circle_points lat1 lon1 lat2 lon2 n).1[n - 1]? = some la →
      (great_circle_points lat1 lon1 lat2 lon2 n).2[n - 1]? = some lo →
      gc_delta la lo lat2 lon2 = 0) ∧
    (∀ k, k < n → (linspace01 n)[k]? = some ((k : ℝ) / ((n : ℝ) - 1))) := by
  refine ⟨gcp_length lat1 lon1 lat2 lon2 n, ?_, ?_,
    fun k hk => linspace01_getElem? hk⟩
  · intro la lo h1 h2
    obtain ⟨-, hv1⟩ := gcp_mem_fst h1
    obtain ⟨-, hv2⟩ := gcp_mem_snd h2
    rw [show ((0 : ℕ) : ℝ) / ((n : ℝ) - 1) = 0 by norm_num] at hv1 hv2
    have hA := (gc_point_dist lat1 lon1 lat2 lon2 0 hd0 hdpi le_rfl
      zero_le_one).1
    rw [hv1, hv2, hA, zero_mul]
  · intro la lo h1 h2
    obtain ⟨-, hv1⟩ := gcp_mem_fst h1
    obtain ⟨-, hv2⟩ := gcp_mem_snd h2
    have hcast : ((n - 1 : ℕ) : ℝ) / ((n : ℝ) - 1) = 1 := by
      have h1n : 1 ≤ n := by omega
      have hne : (n : ℝ) - 1 ≠ 0 := by
        have h2n : (2 : ℝ) ≤ (n : ℝ) := by exact_mod_cast hn
        linarith
      rw [Nat.cast_sub h1n, Nat.cast_one]
      exact div_self hne
    rw [hcast] at hv1 hv2
    have hB := (gc_point_dist lat1 lon1 lat2 lon2 1 hd0 hdpi zero_le_one
      le_rfl).2
    rw [hv1, hv2, hB]
    ring

/-- C3, witness: on the quarter arc from `(0, 0)` to `(0, 90)` with
`n = 2`, the first output point is at great-circle separation `0` from
`(0, 0)` and the last at separation `0` from `(0, 90)`. -/
theorem endpoints_within_tolerance_witness :
    gc_delta 0 0 0 0 = 0 ∧ gc_delta 0 90 0 90 = 0 :=
  ⟨(endpoints_within_tolerance 0 0 0 90 2 (by norm_num)
      gc_delta_quarter_pos gc_delta_quarter_lt_pi).2.1 0 0
      gcp_q_first_fst gcp_q_first_snd,
   (endpoints_within_tolerance 0 0 0 90 2 (by norm_num)
      gc_delta_quarter_pos gc_delta_quarter_lt_pi).2.2.1 0 90
      gcp_q_last_fst gcp_q_last_snd⟩

/-- C5: for a valid non-degenerate, non-antipodal input (central angle
strictly between `0` and `π`) and `n ≥ 2`, every output point `p_k`
satisfies `dist(A, p_k) + dist(p_k, B) = dist(A, B)` — exactly, in the
real-number model, hence within any numerical tolerance.  Distances are
central angles computed by the same spherical law of cosines. -/
theorem distance_additivity (lat1 lon1 lat2 lon2 : ℝ) (n k : ℕ)
    (latk lonk : ℝ) (hn : 2 ≤ n)
    (hd0 : 0 < gc_delta lat1 lon1 lat2 lon2)
    (hdpi : gc_delta lat1 lon1 lat2 lon2 < Real.pi)
    (h1 : (great_circle_points lat1 lon1 lat2 lon2 n).1[k]? = some latk)
    (h2 : (great_circle_points lat1 lon1 lat2 lon2 n).2[k]? = some lonk) :
    gc_delta lat1 lon1 latk lonk + gc_delta latk lonk lat2 lon2 =
      gc_delta lat1 lon1 lat2 lon2 := by
  obtain ⟨hk, hv1⟩ := gcp_mem_fst h1
  obtain ⟨-, hv2⟩ := gcp_mem_snd h2
  have hne : (0 : ℝ) < (n : ℝ) - 1 := by
    have h2n : (2 : ℝ) ≤ (n : ℝ) := by exact_mod_cast hn
    linarith
  have hs0 : 0 ≤ (k : ℝ) / ((n : ℝ) - 1) := div_nonneg (Nat.cast_nonneg k) hne.le
  have hs1 : (k : ℝ) / ((n : ℝ) - 1) ≤ 1 := by
    rw [div_le_one hne]
    have hk1 : (k : ℝ) + 1 ≤ (n : ℝ) := by exact_mod_cast Nat.succ_le_of_lt hk
    linarith
  obtain ⟨hA, hB⟩ := gc_point_dist lat1 lon1 lat2 lon2 ((k : ℝ) / ((n : ℝ) - 1))
    hd0 hdpi hs0 hs1
  rw [hv1, hv2, hA, hB]
  ring

/-- C5, witness: the additivity theorem applied at `k = 0` on the quarter
arc from `(0, 0)` to `(0, 90)` with `n = 2`. -/
theorem distance_additivity_witness :
    gc_delta 0 0 0 0 + gc_delta 0 0 0 90 = gc_delta 0 0 0 90 :=
  distance_additivity 0 0 0 90 2 0 0 0 (by norm_num) gc_delta_quarter_pos
    gc_delta_quarter_lt_pi gcp_q_first_fst gcp_q_first_snd

/-- C6: for a valid non-degenerate, non-antipodal input and `n ≥ 2`, the
great-circle distance from `pointA` to the `k`-th output point is
non-decreasing in `k`: the `k`-th point lies at distance `k/(n-1)` times
the total central angle. -/
theorem distance_monotone (lat1 lon1 lat2 lon2 : ℝ) (n j k : ℕ)
    (latj lonj latk lonk : ℝ) (hn : 2 ≤ n) (hjk : j ≤ k)
    (hd0 : 0 < gc_delta lat1 lon1 lat2 lon2)
    (hdpi : gc_delta lat1 lon1 lat2 lon2 < Real.pi)
    (hj1 : (great_circle_points lat1 lon1 lat2 lon2 n).1[j]? = some latj)
    (hj2 : (great_circle_points lat1 lon1 lat2 lon2 n).2[j]? = some lonj)
    (hk1 : (great_circle_points lat1 lon1 lat2 lon2 n).1[k]? = some latk)
    (hk2 : (great_circle_points lat1 lon1 lat2 lon2 n).2[k]? = some lonk) :
    gc_delta lat1 lon1 latj lonj ≤ gc_delta lat1 lon1 latk lonk := by
  obtain ⟨hjn, hw1⟩ := gcp_mem_fst hj1
  obtain ⟨-, hw2⟩ := gcp_mem_snd hj2
  obtain ⟨hkn, hv1⟩ := gcp_mem_fst hk1
  obtain ⟨-, hv2⟩ := gcp_mem_snd hk2
  have hne : (0 : ℝ) < (n : ℝ) - 1 := by
    have h2n : (2 : ℝ) ≤ (n : ℝ) := by exact_mod_cast hn
    linarith
  have hb : ∀ m : ℕ, m < n → 0 ≤ (m : ℝ) / ((n : ℝ) - 1) ∧
      (m : ℝ) / ((n : ℝ) - 1) ≤ 1 := by
    intro m hm
    refine ⟨div_nonneg (Nat.cast_nonneg m) hne.le, ?_⟩
    rw [div_le_one hne]
    have hm1 : (m : ℝ) + 1 ≤ (n : ℝ) := by exact_mod_cast Nat.succ_le_of_lt hm
    linarith
  obtain ⟨hj0, hj1'⟩ := hb j hjn
  obtain ⟨hk0, hk1'⟩ := hb k hkn
  have hAj := (gc_point_dist lat1 lon1 lat2 lon2 ((j : ℝ) / ((n : ℝ) - 1))
    hd0 hdpi hj0 hj1').1
  have hAk := (gc_point_dist lat1 lon1 lat2 lon2 ((k : ℝ) / ((n : ℝ) - 1))
    hd0 hdpi hk0 hk1').1
  rw [hw1, hw2, hv1, hv2, hAj, hAk]
  have hjk' : (j : ℝ) / ((n : ℝ) - 1) ≤ (k : ℝ) / ((n : ℝ) - 1) :=
    (div_le_div_iff_of_pos_right hne).mpr (by exact_mod_cast hjk)
  exact mul_le_mul_of_nonneg_right hjk' hd0.le

/-- C6, witness: monotonicity applied with `j = 0 ≤ k = 1` on the quarter
arc from `(0, 0)` to `(0, 90)` with `n = 2`. -/
theorem distance_monotone_witness :
    gc_delta 0 0 0 0 ≤ gc_delta 0 0 0 90 :=
  distance_monotone 0 0 0 90 2 0 1 0 0 0 90 (by norm_num) (by norm_num)
    gc_delta_quarter_pos gc_delta_quarter_lt_pi gcp_q_first_fst
    gcp_q_first_snd gcp_q_last_fst gcp_q_last_snd

/-- C7: for every pair of endpoints and every `n ≥ 2`, the output of
`great_circle_points` for `A → B` reversed equals the output for
`B → A` — exactly, component by component, in the real-number model. -/
theorem reverse_symmetry (lat1 lon1 lat2 lon2 : ℝ) (n : ℕ) (hn : 2 ≤ n) :
    (great_circle_points lat1 lon1 lat2 lon2 n).1.reverse =
      (great_circle_points lat2 lon2 lat1 lon1 n).1 ∧
    (great_circle_points lat1 lon1 lat2 lon2 n).2.reverse =
      (great_circle_points lat2 lon2 lat1 lon1 n).2 :=
  gcp_reverse lat1 lon1 lat2 lon2 hn

/-- C7, witness: symmetry at the Los Angeles / Tokyo pair with `n = 2`. -/
theorem reverse_symmetry_witness :
    (great_circle_points 34.0522 (-118.2437) 35.6895 139.6917 2).1.reverse =
      (great_circle_points 35.6895 139.6917 34.0522 (-118.2437) 2).1 ∧
    (great_circle_points 34.0522 (-118.2437) 35.6895 139.6917 2).2.reverse =
      (great_circle_points 35.6895 139.6917 34.0522 (-118.2437) 2).2 :=
  reverse_symmetry 34.0522 (-118.2437) 35.6895 139.6917 2 (by norm_num)

/-- C8: invoking the interpolator with the two endpoints only — Python
fills in the declared default `num_points=50`, as in
`create_globe_figure` — produces two lists of length exactly `50`. -/
theorem default_sample_count (lat1 lon1 lat2 lon2 : ℝ) :
    (great_circle_points_default lat1 lon1 lat2 lon2).1.length = 50 ∧
    (great_circle_points_default lat1 lon1 lat2 lon2).2.length = 50 :=
  gcp_length lat1 lon1 lat2 lon2 50

/-- C9: for every `num_points ≥ 0` — including `0` and `1`, below the
spec's minimum of `2` — `great_circle_points` returns two lists of
length exactly `num_points` without error; for `num_points = 1` the
single interpolation fraction is `0` and (for an in-range first endpoint
and non-degenerate, non-antipodal pair) the single output point is the
first endpoint. -/
theorem small_counts (lat1 lon1 lat2 lon2 : ℝ)
    (ha1 : -90 < lat1) (ha2 : lat1 < 90) (ha3 : -180 < lon1) (ha4 : lon1 ≤ 180)
    (hd0 : 0 < gc_delta lat1 lon1 lat2 lon2)
    (hdpi : gc_delta lat1 lon1 lat2 lon2 < Real.pi) :
    (∀ n : ℕ, (great_circle_points lat1 lon1 lat2 lon2 n).1.length = n ∧
      (great_circle_points lat1 lon1 lat2 lon2 n).2.length = n) ∧
    linspace01 1 = [0] ∧
    great_circle_points lat1 lon1 lat2 lon2 1 = ([lat1], [lon1]) := by
  have hsin : Real.sin (gc_delta lat1 lon1 lat2 lon2) ≠ 0 :=
    (Real.sin_pos_of_pos_of_lt_pi hd0 hdpi).ne'
  have hl1 : linspace01 1 = [0] := by
    unfold linspace01
    norm_num [List.range_succ]
  refine ⟨fun n => gcp_length lat1 lon1 lat2 lon2 n, hl1, ?_⟩
  have hfirst := gc_point_first lat1 lon1 (to_radians lat2) (to_radians lon2)
    (gc_delta lat1 lon1 lat2 lon2) ha1 ha2 ha3 ha4 hsin
  show (List.map Prod.fst ((linspace01 1).map (gc_point (to_radians lat1)
      (to_radians lon1) (to_radians lat2) (to_radians lon2)
      (gc_delta lat1 lon1 lat2 lon2))),
    List.map Prod.snd ((linspace01 1).map (gc_point (to_radians lat1)
      (to_radians lon1) (to_radians lat2) (to_radians lon2)
      (gc_delta lat1 lon1 lat2 lon2)))) = ([lat1], [lon1])
  rw [hl1]
  simp only [List.map_cons, List.map_nil]
  rw [hfirst]

/-- C9, witness: `num_points = 1` on the quarter arc from `(0, 0)` to
`(0, 90)` yields the single fraction `0` and the single point `(0, 0)`. -/
theorem small_counts_witness :
    linspace01 1 = [0] ∧ great_circle_points 0 0 0 90 1 = ([0], [0]) :=
  (small_counts 0 0 0 90 (by norm_num) (by norm_num) (by norm_num)
    (by norm_num) gc_delta_quarter_pos gc_delta_quarter_lt_pi).2

/-- C10: the selection step of `update_flights` returns exactly the
entries of `FLIGHT_PATHS` whose `id` is a member of `selected_ids`, as an
order-preserving sublist of the (unchanged, pure) registry; identifiers
matching no entry are silently ignored. -/
theorem selection_filter (ids : List String) :
    (selected_flights ids).Sublist FLIGHT_PATHS ∧
    ∀ f : Flight, f ∈ selected_flights ids ↔ f ∈ FLIGHT_PATHS ∧ f.id ∈ ids := by
  constructor
  · show (FLIGHT_PATHS.filter fun f => decide (f.id ∈ ids)).Sublist FLIGHT_PATHS
    exact List.filter_sublist _
  · intro f
    show f ∈ FLIGHT_PATHS.filter (fun f => decide (f.id ∈ ids)) ↔ _
    rw [List.mem_filter]
    simp

end
